import Mathlib

/-!
Shallow embedding of the two source files of this repository:

* `volatility/framework/plugins/windows/dumpfiles.py` — the `DumpFiles`
  plugin: `dump_file_producer`, `process_file_object`, `_generator`, `run`.
* `volatility/framework/symbols/linux/extensions/bash.py` — the
  `hist_entry` object extension: `is_valid`, `get_time_as_integer`.

Conventions of the embedding:

* An `InvalidAddressException` raised by a memory access is modelled as
  `Option.none`: a field of type `Option α` holds `none` exactly when the
  corresponding Python attribute access / dereference raises.
* Byte values are `Nat` (a byte is `< 256` in reality; nothing here depends
  on the bound).  A `BytesIO` buffer is a `List Nat`.
* Generators are embedded as the list of the values they yield, in yield
  order (the pipeline is single-threaded and lazy, so the list of yielded
  values determines the observable behaviour).
-/

/-! ### Python formatting helpers used by dumpfiles.py -/

/-- Python `"{0:#x}".format n` for a non-negative integer: `0x` followed by
lowercase hexadecimal digits (`0` yields `"0x0"`). -/
def hexFmt (n : Nat) : String :=
  "0x" ++ String.mk (Nat.toDigits 16 n)

/-- `ntpath.basename` restricted to non-UNC paths, which is what the plugin
feeds it (`\Device\...` device paths): strip a two-character drive prefix
`X:` when present, then keep only what follows the last `\` or `/`. -/
def ntBasename (s : String) : String :=
  let cs := if s.data.length ≥ 2 ∧ s.data.get? 1 = some ':' then s.data.drop 2 else s.data
  String.mk ((cs.reverse.takeWhile (fun c => c ≠ '\\' ∧ c ≠ '/')).reverse)

/-! ### Data model for dumpfiles.py -/

/-- One element of `memory_object.get_available_pages()`:
`(memoffset, fileoffset, datasize)` — read `datasize` bytes at `memoffset`
in the source layer, write them at `fileoffset` in the destination file. -/
structure PageFragment where
  memoffset : Nat
  fileoffset : Nat
  datasize : Nat
deriving DecidableEq, Repr

/-- A data layer: `read off size = some bytes` returns the bytes, `none`
models `layer.read` raising an `InvalidAddressException`. -/
structure Layer where
  read : Nat → Nat → Option (List Nat)

/-- A layer is well formed when every successful read returns exactly the
requested number of bytes (the `AddressableLayer` contract). -/
def Layer.wf (L : Layer) : Prop :=
  ∀ off sz bs, L.read off sz = some bs → bs.length = sz

/-- A `_CONTROL_AREA` or `_SHARED_CACHE_MAP` as `dump_file_producer` sees
it: its offset, its `is_valid()` result, the fragments its
`get_available_pages()` generator yields, and whether that generator raises
an `InvalidAddressException` after yielding them (`pagesFault`). -/
structure MemoryObject where
  offset : Nat
  valid : Bool
  pages : List PageFragment
  pagesFault : Bool
deriving DecidableEq, Repr

/-- `filedata.data.seek fileoffset; filedata.data.write data` on a `BytesIO`
buffer: bytes `[off, off + data.length)` become `data`, a seek past the end
zero-fills the gap, and writing zero bytes leaves the buffer unchanged. -/
def bufWrite (buf : List Nat) (off : Nat) (data : List Nat) : List Nat :=
  if data.length = 0 then buf
  else
    (List.range (max buf.length (off + data.length))).map fun i =>
      if i < off then buf.getD i 0
      else if i < off + data.length then data.getD (i - off) 0
      else buf.getD i 0

/-- The `for memoffset, fileoffset, datasize in ...get_available_pages()`
loop body of `dump_file_producer`, folded over the yielded fragments:
`none` when some `layer.read` raises. -/
def runPages (L : Layer) : List PageFragment → List Nat → Option (List Nat)
  | [], buf => some buf
  | f :: rest, buf =>
    match L.read f.memoffset f.datasize with
    | none => none
    | some data => runPages L rest (bufWrite buf f.fileoffset data)

/-- Result text of the empty / all-zero branch of `dump_file_producer`. -/
def noDataText (fileObjOffset : Nat) : String :=
  "No data is cached for the file at " ++ hexFmt fileObjOffset

/-- Result text of the `except InvalidAddressException` branch. -/
def unableText (fileObjOffset : Nat) : String :=
  "Unable to dump file at " ++ hexFmt fileObjOffset

/-- What one `dump_file_producer` call does: the returned `result_text`,
and the file handed to `produce_file` (name and bytes), if any. -/
structure ProducerOutcome where
  resultText : String
  produced : Option (String × List Nat)
deriving DecidableEq, Repr

/-- `DumpFiles.dump_file_producer`: iterate the fragments into a fresh
buffer; on any `InvalidAddressException` (a failing read, or the fragment
generator itself raising) return the "Unable to dump" text with nothing
produced; otherwise discard empty or all-zero buffers, and store the rest
under `desired_file_name` (which is also the `preferred_filename`). -/
def dump_file_producer (fileObjOffset : Nat) (mo : MemoryObject) (L : Layer)
    (desiredFileName : String) : ProducerOutcome :=
  match runPages L mo.pages [] with
  | none => ⟨unableText fileObjOffset, none⟩
  | some buf =>
    if mo.pagesFault then ⟨unableText fileObjOffset, none⟩
    else if buf.length = 0 ∨ buf.count 0 = buf.length then
      ⟨noDataText fileObjOffset, none⟩
    else ⟨"Stored " ++ desiredFileName, some (desiredFileName, buf)⟩

/-! ### process_file_object -/

/-- `FILE_DEVICE_DISK` from dumpfiles.py. -/
def FILE_DEVICE_DISK : Nat := 0x7

/-- `FILE_DEVICE_NETWORK_FILE_SYSTEM` from dumpfiles.py. -/
def FILE_DEVICE_NETWORK_FILE_SYSTEM : Nat := 0x14

/-- `EXTENSION_CACHE_MAP` from dumpfiles.py: maps a file extension to the
name of the cache it came from (only ever applied to the three keys). -/
def EXTENSION_CACHE_MAP (ext : String) : String :=
  if ext = "dat" then "DataSectionObject"
  else if ext = "img" then "ImageSectionObject"
  else "SharedCacheMap"

/-- Which layer a queued dump reads from: the `memory_layer` for the two
section caches or the `primary` layer for the shared cache map. -/
inductive LayerTag where
  | memory
  | primary
deriving DecidableEq, Repr

/-- A `_FILE_OBJECT` as `process_file_object` and the discovery walks see
it: its offset, `DeviceObject.DeviceType`, `is_valid()` (checked only on
the VAD path), `file_name_with_device()`, and the three cache pointers.
Each pointer field is `none` when resolving / dereferencing / casting it
raises an `InvalidAddressException` (caught per member in the source). -/
structure FileObject where
  offset : Nat
  deviceType : Nat
  valid : Bool
  objName : String
  dataSectionObject : Option MemoryObject
  imageSectionObject : Option MemoryObject
  sharedCacheMap : Option MemoryObject
deriving DecidableEq, Repr

/-- One member of the `dump_parameters` list: a candidate is queued exactly
when its pointer resolved without fault and `is_valid()` held. -/
def candidate (m : Option MemoryObject) (tag : LayerTag) (ext : String) :
    List (MemoryObject × LayerTag × String) :=
  match m with
  | none => []
  | some mo => if mo.valid then [(mo, tag, ext)] else []

/-- The `dump_parameters` list built by `process_file_object`:
DataSectionObject and ImageSectionObject from the memory layer, then the
SharedCacheMap from the primary layer. -/
def dumpParameters (fo : FileObject) : List (MemoryObject × LayerTag × String) :=
  candidate fo.dataSectionObject LayerTag.memory "dat" ++
    candidate fo.imageSectionObject LayerTag.memory "img" ++
    candidate fo.sharedCacheMap LayerTag.primary "vacb"

/-- Resolve a `LayerTag` against the two concrete layers. -/
def layerOf (ml pl : Layer) : LayerTag → Layer
  | LayerTag.memory => ml
  | LayerTag.primary => pl

/-- The `desired_file_name` format string
`"file.{0:#x}.{1:#x}.{2}.{3}.{4}"` of `process_file_object`. -/
def desiredFileName (fileOff cacheOff : Nat) (cacheName base ext : String) : String :=
  "file." ++ hexFmt fileOff ++ "." ++ hexFmt cacheOff ++ "." ++ cacheName ++ "." ++
    base ++ "." ++ ext

/-- A row of the result stream:
`(cache_name, file object offset, basename, result_text)`. -/
abbrev Row := String × Nat × String × String

/-- Record of one queued dump attempt (one `dump_parameters` element as it
is consumed: cache name, cache object offset, extension, computed name). -/
structure Attempt where
  cacheName : String
  cacheOffset : Nat
  ext : String
  name : String
deriving DecidableEq, Repr

/-- Everything observable that one `process_file_object` call does: the
rows it yields, the dump attempts it performs, and the files it hands to
`produce_file` via `dump_file_producer`. -/
structure PFOResult where
  rows : List Row
  attempts : List Attempt
  produced : List (String × List Nat)
deriving DecidableEq, Repr

/-- The row yielded for one `dump_parameters` element. -/
def mkRow (ml pl : Layer) (fo : FileObject) (p : MemoryObject × LayerTag × String) : Row :=
  let cacheName := EXTENSION_CACHE_MAP p.2.2
  let name := desiredFileName fo.offset p.1.offset cacheName (ntBasename fo.objName) p.2.2
  (cacheName, fo.offset, ntBasename fo.objName,
    (dump_file_producer fo.offset p.1 (layerOf ml pl p.2.1) name).resultText)

/-- The attempt record for one `dump_parameters` element. -/
def mkAttempt (fo : FileObject) (p : MemoryObject × LayerTag × String) : Attempt :=
  let cacheName := EXTENSION_CACHE_MAP p.2.2
  ⟨cacheName, p.1.offset, p.2.2,
    desiredFileName fo.offset p.1.offset cacheName (ntBasename fo.objName) p.2.2⟩

/-- The file (if any) handed to `produce_file` for one `dump_parameters`
element. -/
def mkProduced (ml pl : Layer) (fo : FileObject) (p : MemoryObject × LayerTag × String) :
    Option (String × List Nat) :=
  let cacheName := EXTENSION_CACHE_MAP p.2.2
  let name := desiredFileName fo.offset p.1.offset cacheName (ntBasename fo.objName) p.2.2
  (dump_file_producer fo.offset p.1 (layerOf ml pl p.2.1) name).produced

/-- `DumpFiles.process_file_object`: bail out (yielding nothing, attempting
nothing) unless the device type is DISK or NETWORK_FILE_SYSTEM; otherwise
build `dump_parameters` and, for each element, compute the artifact name,
run `dump_file_producer` and yield one row. -/
def process_file_object (ml pl : Layer) (fo : FileObject) : PFOResult :=
  if fo.deviceType ∉ [FILE_DEVICE_DISK, FILE_DEVICE_NETWORK_FILE_SYSTEM] then ⟨[], [], []⟩
  else
    let ps := dumpParameters fo
    ⟨ps.map (mkRow ml pl fo), ps.map (mkAttempt fo), ps.filterMap (mkProduced ml pl fo)⟩

/-! ### The generator and run -/

/-- A handle-table entry as the handle walk sees it: `resolvedType` is
`none` when `get_object_type` / the body cast raises (caught per entry),
otherwise the resolved type name; `body` is the entry body viewed as a
`_FILE_OBJECT` (consulted only when the type is `"File"`). -/
structure HandleEntry where
  resolvedType : Option String
  body : FileObject
deriving DecidableEq, Repr

/-- A VAD node as the mapping-tree walk sees it: either it has a
`ControlArea` member (XP/2003 layout), or a `Subsection` member (Vista and
beyond), or neither.  The carried `Option FileObject` is `none` when
resolving the node's file pointer raises (caught per node). -/
inductive Vad where
  | legacy (fo : Option FileObject)
  | modern (fo : Option FileObject)
  | neither
deriving DecidableEq, Repr

/-- A process as `_generator` sees it: `objectTable` is `none` when reading
`_EPROCESS.ObjectTable` raises (in which case the source logs and
`continue`s to the next process), and `vads` is what
`get_vad_root().traverse()` yields. -/
structure Proc where
  objectTable : Option (List HandleEntry)
  vads : List Vad
deriving DecidableEq, Repr

/-- Rows yielded for one handle-table entry: nothing when the entry faults
or its type is not `"File"`, else the rows of `process_file_object`. -/
def entryRows (ml pl : Layer) (e : HandleEntry) : List Row :=
  match e.resolvedType with
  | none => []
  | some t => if t = "File" then (process_file_object ml pl e.body).rows else []

/-- Rows yielded for one VAD node: nothing when the node has neither
layout, faults, or its file object fails `is_valid()`. -/
def vadRows (ml pl : Layer) (v : Vad) : List Row :=
  match v with
  | Vad.legacy none => []
  | Vad.legacy (some fo) => if fo.valid then (process_file_object ml pl fo).rows else []
  | Vad.modern none => []
  | Vad.modern (some fo) => if fo.valid then (process_file_object ml pl fo).rows else []
  | Vad.neither => []

/-- The `for entry in handles_plugin.handles(object_table)` loop. -/
def genEntries (ml pl : Layer) : List HandleEntry → List Row
  | [] => []
  | e :: es => entryRows ml pl e ++ genEntries ml pl es

/-- The `for vad in proc.get_vad_root().traverse()` loop. -/
def genVads (ml pl : Layer) : List Vad → List Row
  | [] => []
  | v :: vs => vadRows ml pl v ++ genVads ml pl vs

/-- The `for proc in procs` loop of `_generator`: a fault on
`proc.ObjectTable` logs and `continue`s — skipping the whole process,
its VAD walk included; otherwise the handle-table walk runs first and the
VAD walk second. -/
def generatorProcs (ml pl : Layer) : List Proc → List Row
  | [] => []
  | p :: ps =>
    match p.objectTable with
    | none => generatorProcs ml pl ps
    | some entries =>
      genEntries ml pl entries ++ genVads ml pl p.vads ++ generatorProcs ml pl ps

/-- External collaborators of `_generator` / `run`: materializing a
`_FILE_OBJECT` at a raw offset (`context.object`, `none` = fault) and
`pslist.PsList.list_processes` under a pid filter. -/
structure Env where
  materialize : Nat → Option FileObject
  listProcesses : Option Nat → List Proc

/-- The `for offset in offsets` loop of `_generator`: a materialization
fault logs and skips that offset. -/
def generatorOffsets (ml pl : Layer) (env : Env) : List Nat → List Row
  | [] => []
  | off :: rest =>
    (match env.materialize off with
     | none => []
     | some fo => (process_file_object ml pl fo).rows) ++ generatorOffsets ml pl env rest

/-- `DumpFiles._generator`: process-driven mode when `procs` is non-empty,
explicit-offset mode when `offsets` is non-empty, nothing otherwise. -/
def generatorRows (ml pl : Layer) (env : Env) (procs : List Proc) (offsets : List Nat) :
    List Row :=
  if procs ≠ [] then generatorProcs ml pl procs
  else if offsets ≠ [] then generatorOffsets ml pl env offsets
  else []

/-- The configuration surface of `run`: the optional `fileoffset` and the
optional `pid` filter. -/
structure Config where
  fileoffset : Option Nat
  pid : Option Nat
deriving DecidableEq, Repr

/-- `DumpFiles.run`: with `fileoffset` configured, process exactly that
offset with no processes; otherwise list processes under the pid filter
and process those with no offsets. -/
def run (ml pl : Layer) (env : Env) (cfg : Config) : List Row :=
  match cfg.fileoffset with
  | some off => generatorRows ml pl env [] [off]
  | none => generatorRows ml pl env (env.listProcesses cfg.pid) []

/-! ### bash.py: hist_entry -/

/-- ASCII whitespace stripped by Python `int(str)`. -/
def isPySpace (c : Char) : Bool :=
  c = ' ' ∨ c = '\t' ∨ c = '\n' ∨ c = '\x0b' ∨ c = '\x0c' ∨ c = '\r'

/-- Digit-group validity for a Python integer literal body: one or more
ASCII digits, with single underscores allowed only between digits.  The
accumulator records whether the previous character was a digit. -/
def pyDigitsOk : List Char → Bool → Bool
  | [], prev => prev
  | '_' :: rest, prev => if prev then pyDigitsOk rest false else false
  | c :: rest, _ => if c.isDigit then pyDigitsOk rest true else false

/-- Numeric value of a digit group with its underscores removed. -/
def pyDigitsVal (cs : List Char) : Nat :=
  (cs.filter (fun c => c ≠ '_')).foldl (fun a c => 10 * a + (c.toNat - 48)) 0

/-- Python `int(s)` on a decimal string: strip surrounding whitespace, take
an optional sign, and require a valid digit group; `none` models the
`ValueError` raised otherwise. -/
def pyInt (s : String) : Option Int :=
  let cs := ((s.data.dropWhile isPySpace).reverse.dropWhile isPySpace).reverse
  match cs with
  | '+' :: body => if pyDigitsOk body false then some (Int.ofNat (pyDigitsVal body)) else none
  | '-' :: body => if pyDigitsOk body false then some (-(Int.ofNat (pyDigitsVal body))) else none
  | body => if pyDigitsOk body false then some (Int.ofNat (pyDigitsVal body)) else none

/-- A bash `hist_entry` as its methods see it: the command string read via
`self.line.dereference()` and the timestamp string read via
`self.timestamp.dereference()`.  A field is `none` when that dereference
raises a `PagedInvalidAddressException`; the image is static, so repeated
reads of the same field yield the same value. -/
structure HistEntry where
  line : Option String
  timestamp : Option String
deriving DecidableEq, Repr

/-- `hist_entry.get_command`. -/
def get_command (h : HistEntry) : Option String := h.line

/-- `hist_entry.is_valid`: catch a fault on either string read, reject an
empty command or timestamp, require the timestamp to be at least 10
characters long and start with `#`, and require `int(ts[1:])` to parse. -/
def is_valid (h : HistEntry) : Bool :=
  match h.line, h.timestamp with
  | some cmd, some ts =>
    if cmd.length = 0 then false
    else if ts.length = 0 then false
    else if ts.length < 10 ∨ ts.data.getD 0 ' ' ≠ '#' then false
    else (pyInt (ts.drop 1)).isSome
  | _, _ => false

/-- `hist_entry.get_time_as_integer`: re-read the timestamp, drop its first
character and convert with `int` (`none` models a propagated
`PagedInvalidAddressException` or `ValueError`). -/
def get_time_as_integer (h : HistEntry) : Option Int :=
  match h.timestamp with
  | none => none
  | some ts => pyInt (ts.drop 1)

/-! ### Concrete objects used by witnesses and counterexamples -/

/-- A layer on which every read faults. -/
def faultLayer : Layer := ⟨fun _ _ => none⟩

/-- A layer on which every read succeeds, returning `sz` distinct bytes
starting at the value `off` (well formed by construction). -/
def okLayer : Layer := ⟨fun off sz => some ((List.range sz).map (fun j => off + j))⟩

/-- A valid cache object with one fragment. -/
def cexMO : MemoryObject := ⟨0x30, true, [⟨0, 0, 4⟩], false⟩

/-- A valid cache object whose fragment sequence is empty. -/
def cexMOEmpty : MemoryObject := ⟨0x40, true, [], false⟩

/-! ### Claims -/

/-- Claim C2: for every cache object and layer, if iterating the page
sequence or reading a page raises an address fault, `dump_file_producer`
returns the "Unable to dump file" text and hands nothing to the external
sink — bytes accumulated before the fault are discarded, never flushed. -/
theorem C2_fault_all_or_nothing (fileObjOffset : Nat) (mo : MemoryObject) (L : Layer)
    (name : String)
    (h : runPages L mo.pages [] = none ∨ mo.pagesFault = true) :
    dump_file_producer fileObjOffset mo L name =
      ⟨unableText fileObjOffset, none⟩ := by
  unfold dump_file_producer
  rcases h with h | h
  · rw [h]
  · cases hr : runPages L mo.pages [] with
    | none => rfl
    | some buf => simp [h]

/-- Witness for C2 at a concrete faulting layer. -/
theorem C2_fault_all_or_nothing_witness :
    (runPages faultLayer cexMO.pages [] = none ∨ cexMO.pagesFault = true) ∧
    dump_file_producer 0x20 cexMO faultLayer "f" = ⟨unableText 0x20, none⟩ :=
  ⟨Or.inl rfl, C2_fault_all_or_nothing 0x20 cexMO faultLayer "f" (Or.inl rfl)⟩

/-- Claim C3: for every cache object whose fragment iteration completes
without fault, an empty or all-zero buffer yields the "No data is cached"
text with nothing handed to the sink; otherwise the buffer is handed to
`produce_file` and the result is "Stored " plus the preferred filename. -/
theorem C3_empty_or_zero_discarded (off : Nat) (mo : MemoryObject) (L : Layer)
    (name : String) (buf : List Nat)
    (hrun : runPages L mo.pages [] = some buf) (hfault : mo.pagesFault = false) :
    ((buf = [] ∨ ∀ b ∈ buf, b = 0) →
        dump_file_producer off mo L name = ⟨noDataText off, none⟩) ∧
    (¬(buf = [] ∨ ∀ b ∈ buf, b = 0) →
        dump_file_producer off mo L name = ⟨"Stored " ++ name, some (name, buf)⟩) := by
  have hiff : (buf.length = 0 ∨ buf.count 0 = buf.length) ↔
      (buf = [] ∨ ∀ b ∈ buf, b = 0) := by
    rw [List.length_eq_zero, List.count_eq_length]
    constructor
    · rintro (h | h)
      · exact Or.inl h
      · exact Or.inr fun b hb => (h b hb).symm
    · rintro (h | h)
      · exact Or.inl h
      · exact Or.inr fun b hb => (h b hb).symm
  unfold dump_file_producer
  rw [hrun, hfault]
  constructor
  · intro hz
    simp only [Bool.false_eq_true, if_false, if_pos (hiff.mpr hz)]
  · intro hz
    simp only [Bool.false_eq_true, if_false, if_neg (fun hc => hz (hiff.mp hc))]

/-- Witness for C3 at a cache object with an empty fragment sequence. -/
theorem C3_empty_or_zero_discarded_witness :
    runPages okLayer cexMOEmpty.pages [] = some [] ∧ cexMOEmpty.pagesFault = false ∧
    (([] : List Nat) = [] ∨ ∀ b ∈ ([] : List Nat), b = 0) ∧
    dump_file_producer 0x20 cexMOEmpty okLayer "f" = ⟨noDataText 0x20, none⟩ :=
  ⟨rfl, rfl, Or.inl rfl,
    (C3_empty_or_zero_discarded 0x20 cexMOEmpty okLayer "f" [] rfl rfl).1 (Or.inl rfl)⟩

/-- Claim C5: a file object whose `DeviceObject.DeviceType` is neither
`FILE_DEVICE_DISK` (0x7) nor `FILE_DEVICE_NETWORK_FILE_SYSTEM` (0x14)
yields zero rows and triggers no dump attempt and no produced file. -/
theorem C5_device_filter (ml pl : Layer) (fo : FileObject)
    (h1 : fo.deviceType ≠ FILE_DEVICE_DISK)
    (h2 : fo.deviceType ≠ FILE_DEVICE_NETWORK_FILE_SYSTEM) :
    process_file_object ml pl fo = ⟨[], [], []⟩ := by
  unfold process_file_object
  simp [h1, h2]

/-- Witness for C5 at a concrete file object with device type 0. -/
theorem C5_device_filter_witness :
    (0 : Nat) ≠ FILE_DEVICE_DISK ∧ (0 : Nat) ≠ FILE_DEVICE_NETWORK_FILE_SYSTEM ∧
    process_file_object okLayer okLayer ⟨0x10, 0, true, "p", some cexMO, none, none⟩ =
      ⟨[], [], []⟩ :=
  ⟨by decide, by decide,
    C5_device_filter okLayer okLayer ⟨0x10, 0, true, "p", some cexMO, none, none⟩
      (by decide) (by decide)⟩

/-- Claim C8: with an explicit `fileoffset` configured, `run` processes
only that offset and the `pid` value has no effect: for any two pid-filter
values the produced row stream is identical. -/
theorem C8_mode_exclusivity (ml pl : Layer) (env : Env) (off : Nat)
    (pid₁ pid₂ : Option Nat) :
    run ml pl env ⟨some off, pid₁⟩ = run ml pl env ⟨some off, pid₂⟩ := rfl

/-- Claim C9: `dump_file_producer` is total over its fault model and always
returns exactly one of the three result texts — "No data is cached for the
file at ...", "Stored ...", or "Unable to dump file at ..." — never
letting an `InvalidAddressException` escape to its caller. -/
theorem C9_three_results (off : Nat) (mo : MemoryObject) (L : Layer) (name : String) :
    (dump_file_producer off mo L name).resultText = noDataText off ∨
    (dump_file_producer off mo L name).resultText = "Stored " ++ name ∨
    (dump_file_producer off mo L name).resultText = unableText off := by
  unfold dump_file_producer
  cases runPages L mo.pages [] with
  | none => exact Or.inr (Or.inr rfl)
  | some buf =>
    by_cases hf : mo.pagesFault
    · simp [hf]
    · by_cases hz : buf = [] ∨ buf.count 0 = buf.length
      · simp [hf, hz]
      · simp [hf, hz]

/-- Claim C7: every queued dump attempt's artifact name is exactly
`"file." ++ hex fileObjOffset ++ "." ++ hex cacheObjOffset ++ "." ++
cacheKindName ++ "." ++ basename devicePath ++ "." ++ extension`; being a
pure function of those five inputs, identical inputs always produce
identical names. -/
theorem C7_artifact_name (ml pl : Layer) (fo : FileObject) (a : Attempt)
    (ha : a ∈ (process_file_object ml pl fo).attempts) :
    a.name = "file." ++ hexFmt fo.offset ++ "." ++ hexFmt a.cacheOffset ++ "." ++
      a.cacheName ++ "." ++ ntBasename fo.objName ++ "." ++ a.ext := by
  unfold process_file_object at ha
  by_cases hd : fo.deviceType ∉ [FILE_DEVICE_DISK, FILE_DEVICE_NETWORK_FILE_SYSTEM]
  · rw [if_pos hd] at ha
    exact absurd ha (by simp)
  · rw [if_neg hd] at ha
    obtain ⟨p, hp, rfl⟩ := List.mem_map.mp ha
    rfl

/-- Witness for C7 at a concrete file object with one valid data cache. -/
theorem C7_artifact_name_witness :
    mkAttempt ⟨0x10, 0x7, true, "\\Device\\HarddiskVolume2\\a.txt", some cexMOEmpty, none, none⟩
        (cexMOEmpty, LayerTag.memory, "dat") ∈
      (process_file_object okLayer okLayer
        ⟨0x10, 0x7, true, "\\Device\\HarddiskVolume2\\a.txt", some cexMOEmpty, none, none⟩).attempts ∧
    (mkAttempt ⟨0x10, 0x7, true, "\\Device\\HarddiskVolume2\\a.txt", some cexMOEmpty, none, none⟩
        (cexMOEmpty, LayerTag.memory, "dat")).name =
      "file." ++ hexFmt 0x10 ++ "." ++ hexFmt 0x40 ++ "." ++ "DataSectionObject" ++ "." ++
        ntBasename "\\Device\\HarddiskVolume2\\a.txt" ++ "." ++ "dat" :=
  ⟨by decide,
    C7_artifact_name okLayer okLayer
      ⟨0x10, 0x7, true, "\\Device\\HarddiskVolume2\\a.txt", some cexMOEmpty, none, none⟩
      (mkAttempt ⟨0x10, 0x7, true, "\\Device\\HarddiskVolume2\\a.txt", some cexMOEmpty, none, none⟩
        (cexMOEmpty, LayerTag.memory, "dat")) (by decide)⟩

/-- The handle-table loop yields exactly the concatenation of its
per-entry rows, in entry order. -/
theorem genEntries_flatten (ml pl : Layer) (es : List HandleEntry) :
    genEntries ml pl es = (es.map (entryRows ml pl)).flatten := by
  induction es with
  | nil => rfl
  | cons e es ih => simp [genEntries, ih]

/-- The VAD loop yields exactly the concatenation of its per-node rows, in
traversal order. -/
theorem genVads_flatten (ml pl : Layer) (vs : List Vad) :
    genVads ml pl vs = (vs.map (vadRows ml pl)).flatten := by
  induction vs with
  | nil => rfl
  | cons v vs ih => simp [genVads, ih]

/-- Claim C6: in process-driven mode the row stream is, per process in
input order, all handle-table-derived rows followed by all mapping-tree
(VAD)-derived rows of that process (nothing for a process whose handle
table faults). -/
theorem C6_row_order (ml pl : Layer) (procs : List Proc) :
    generatorProcs ml pl procs =
      (procs.map fun p =>
        match p.objectTable with
        | none => []
        | some es =>
          (es.map (entryRows ml pl)).flatten ++ (p.vads.map (vadRows ml pl)).flatten).flatten := by
  induction procs with
  | nil => rfl
  | cons p ps ih =>
    cases hob : p.objectTable with
    | none => simp [generatorProcs, hob, ih]
    | some es =>
      simp [generatorProcs, hob, ih, genEntries_flatten, genVads_flatten, List.append_assoc]

/-- A file object that produces one row (a "no data" row from its valid,
empty data cache) when processed. -/
def cexFO : FileObject :=
  ⟨0x10, 0x7, true, "\\Device\\HarddiskVolume2\\a.txt", some cexMOEmpty, none, none⟩

/-- A process whose `ObjectTable` access faults but whose VAD walk would
discover `cexFO`. -/
def cexProc : Proc := ⟨none, [Vad.modern (some cexFO)]⟩

/-- Counterexample to claim C1 as stated: for `cexProc`, whose handle-table
access faults, the generator yields no rows at all, even though the
mapping-tree walk of its VADs would derive a (non-empty) list of rows —
the `continue` in the source skips the whole process, VAD walk included. -/
theorem C1_counterexample :
    generatorProcs okLayer okLayer [cexProc] = [] ∧
    genVads okLayer okLayer cexProc.vads ≠ [] := by
  constructor
  · rfl
  · decide

/-- Claim C1 as amended: a process whose handle-table access
(`_EPROCESS.ObjectTable`) faults contributes zero rows of either kind —
handle-table-derived and mapping-tree-derived alike — and the generator
moves on to the remaining processes. -/
theorem C1_fault_skips_whole_process (ml pl : Layer) (p : Proc) (ps : List Proc)
    (h : p.objectTable = none) :
    generatorProcs ml pl (p :: ps) = generatorProcs ml pl ps := by
  simp only [generatorProcs, h]

/-- Witness for the amended C1 at `cexProc`. -/
theorem C1_fault_skips_whole_process_witness :
    cexProc.objectTable = none ∧
    generatorProcs okLayer okLayer [cexProc] = generatorProcs okLayer okLayer [] :=
  ⟨rfl, C1_fault_skips_whole_process okLayer okLayer cexProc [] rfl⟩

/-- Value of a `BytesIO` buffer at an index after one `seek`/`write` pair:
inside the written range it is the written data, outside it is whatever was
there before (reading past the end gives the zero fill). -/
theorem bufWrite_getD (buf data : List Nat) (off i : Nat) :
    (bufWrite buf off data).getD i 0 =
      if off ≤ i ∧ i < off + data.length then data.getD (i - off) 0
      else buf.getD i 0 := by
  unfold bufWrite
  by_cases hd : data.length = 0
  · have hno : ¬(off ≤ i ∧ i < off + data.length) := by omega
    rw [if_pos hd, if_neg hno]
  · rw [if_neg hd]
    by_cases hiN : i < max buf.length (off + data.length)
    · rw [List.getD_eq_getElem?_getD, List.getElem?_map, List.getElem?_range hiN]
      simp only [Option.map_some', Option.getD_some]
      by_cases h1 : i < off
      · rw [if_pos h1, if_neg (by omega)]
      · rw [if_neg h1]
        by_cases h2 : i < off + data.length
        · rw [if_pos h2, if_pos (by omega)]
        · rw [if_neg h2, if_neg (by omega)]
    · push_neg at hiN
      rw [List.getD_eq_getElem?_getD, List.getElem?_eq_none (by simp; omega)]
      rw [if_neg (by omega), List.getD_eq_getElem?_getD,
        List.getElem?_eq_none (by omega)]

/-- `runPages` over a concatenation of fragment lists runs the first list,
then (if it did not fault) the second from the resulting buffer. -/
theorem runPages_append (L : Layer) (xs ys : List PageFragment) (buf : List Nat) :
    runPages L (xs ++ ys) buf =
      match runPages L xs buf with
      | none => none
      | some b => runPages L ys b := by
  induction xs generalizing buf with
  | nil => rfl
  | cons f rest ih =>
    simp only [List.cons_append, runPages]
    cases L.read f.memoffset f.datasize with
    | none => rfl
    | some data => exact ih _

/-- Fragments none of which cover destination index `i` leave the buffer's
value at `i` unchanged (on a well-formed layer). -/
theorem runPages_getD_of_not_covered (L : Layer) (hwf : L.wf) (i : Nat) :
    ∀ (ps : List PageFragment) (b b' : List Nat),
      (∀ g ∈ ps, ¬(g.fileoffset ≤ i ∧ i < g.fileoffset + g.datasize)) →
      runPages L ps b = some b' → b'.getD i 0 = b.getD i 0 := by
  intro ps
  induction ps with
  | nil =>
    intro b b' _ h
    cases h
    rfl
  | cons g rest ih =>
    intro b b' hnc hrun
    simp only [runPages] at hrun
    cases hr : L.read g.memoffset g.datasize with
    | none => rw [hr] at hrun; cases hrun
    | some data =>
      rw [hr] at hrun
      have hlen := hwf _ _ _ hr
      have hrest := ih _ _ (fun x hx => hnc x (List.mem_cons_of_mem _ hx)) hrun
      rw [hrest, bufWrite_getD]
      rw [if_neg (by rw [hlen]; exact hnc g (List.mem_cons_self _ _))]

/-- Claim C4: last write wins.  If the fragment `f` covers destination
index `i`, no fragment after `f` in the cache object's iteration order
covers `i`, and reconstruction completes without fault, the final buffer's
byte at `i` is the byte `f`'s read put there. -/
theorem C4_last_write_wins (L : Layer) (hwf : L.wf) (pre post : List PageFragment)
    (f : PageFragment) (data buf : List Nat) (i : Nat)
    (hread : L.read f.memoffset f.datasize = some data)
    (hcov : f.fileoffset ≤ i ∧ i < f.fileoffset + f.datasize)
    (hlater : ∀ g ∈ post, ¬(g.fileoffset ≤ i ∧ i < g.fileoffset + g.datasize))
    (hrun : runPages L (pre ++ f :: post) [] = some buf) :
    buf.getD i 0 = data.getD (i - f.fileoffset) 0 := by
  rw [runPages_append] at hrun
  cases hp : runPages L pre [] with
  | none => rw [hp] at hrun; cases hrun
  | some b1 =>
    rw [hp] at hrun
    simp only [runPages, hread] at hrun
    have hlen := hwf _ _ _ hread
    have h2 := runPages_getD_of_not_covered L hwf i post _ _ hlater hrun
    rw [h2, bufWrite_getD, if_pos (by rw [hlen]; exact hcov)]

/-- Witness for C4: two overlapping fragments on a concrete layer; index 2
is covered by both, and ends up holding the second fragment's byte. -/
theorem C4_last_write_wins_witness :
    okLayer.wf ∧
    okLayer.read 100 4 = some [100, 101, 102, 103] ∧
    runPages okLayer ([⟨10, 0, 4⟩] ++ (⟨100, 2, 4⟩ : PageFragment) :: []) [] =
      some [10, 11, 100, 101, 102, 103] ∧
    ([10, 11, 100, 101, 102, 103] : List Nat).getD 2 0 =
      ([100, 101, 102, 103] : List Nat).getD (2 - 2) 0 :=
  have hwf : okLayer.wf := fun off sz bs h => by
    simp only [okLayer] at h
    cases h
    simp
  ⟨hwf, by decide, by decide,
    C4_last_write_wins okLayer hwf [⟨10, 0, 4⟩] [] ⟨100, 2, 4⟩ [100, 101, 102, 103]
      [10, 11, 100, 101, 102, 103] 2 (by decide) (by decide) (by simp) (by decide)⟩

/-- Claim C10: whenever `is_valid` returns `True` for a bash history
entry, its timestamp string starts with `#`, is at least 10 characters
long, and its remainder parses as a Python integer, so
`get_time_as_integer` succeeds (no `ValueError`) and returns that
integer. -/
theorem C10_valid_time_parses (h : HistEntry) (hv : is_valid h = true) :
    ∃ ts n, h.timestamp = some ts ∧ 10 ≤ ts.length ∧ ts.data.getD 0 ' ' = '#' ∧
      pyInt (ts.drop 1) = some n ∧ get_time_as_integer h = some n := by
  cases hl : h.line with
  | none => rw [is_valid, hl] at hv; cases h.timestamp <;> exact Bool.noConfusion hv
  | some cmd =>
    cases ht : h.timestamp with
    | none => rw [is_valid, hl, ht] at hv; exact Bool.noConfusion hv
    | some ts =>
      rw [is_valid, hl, ht] at hv
      simp only [] at hv
      split_ifs at hv with h1 h2 h3
      push_neg at h3
      obtain ⟨h10, hhash⟩ := h3
      obtain ⟨n, hn⟩ := Option.isSome_iff_exists.mp hv
      refine ⟨ts, n, rfl, by omega, hhash, hn, ?_⟩
      rw [get_time_as_integer, ht]
      exact hn

/-- A concrete valid bash history entry. -/
def cexHist : HistEntry := ⟨some "ls", some "#1700000000"⟩

/-- Witness for C10 at `cexHist`. -/
theorem C10_valid_time_parses_witness :
    is_valid cexHist = true ∧
    (∃ ts n, cexHist.timestamp = some ts ∧ 10 ≤ ts.length ∧ ts.data.getD 0 ' ' = '#' ∧
      pyInt (ts.drop 1) = some n ∧ get_time_as_integer cexHist = some n) :=
  ⟨by decide, C10_valid_time_parses cexHist (by decide)⟩
